import Mathlib

/-!
Verification development for the zero_monitor repository (monitor.py).

The monitoring engine is embedded shallowly: numeric metric values are
modelled as exact rationals, raw command outputs as strings, and the
effectful parts of get_metrics (SSH connect, command execution) as an
explicit transport-result parameter.  The parsing code inside
get_metrics is translated line by line from monitor.py.
-/

namespace ZeroMonitor

/-- Python whitespace characters relevant to str.split, str.strip and the
regex class backslash-s, restricted to the ASCII range that the modelled
command outputs use. -/
def isPySpace (c : Char) : Bool :=
  c = ' ' || c = '\t' || c = '\n' || c = '\r' || c = '\x0b' || c = '\x0c'

/-- Numeric value of a list of decimal digit characters, most significant
first, as produced by a digit run in the parsed text. -/
def digitsToNat (l : List Char) : Nat :=
  l.foldl (fun n c => 10 * n + (c.toNat - 48)) 0

/-- Model of Python str.strip with no argument: remove leading and trailing
whitespace. -/
def stripPy (l : List Char) : List Char :=
  ((l.dropWhile isPySpace).reverse.dropWhile isPySpace).reverse

/-- Helper for splitPy: accumulate the current word and emit it at each
whitespace run. -/
def splitPyAux : List Char → List Char → List (List Char)
  | [], acc => if acc.isEmpty then [] else [acc.reverse]
  | c :: rest, acc =>
    if isPySpace c then
      if acc.isEmpty then splitPyAux rest []
      else acc.reverse :: splitPyAux rest []
    else splitPyAux rest (c :: acc)

/-- Model of Python str.split with no argument: split on runs of whitespace,
discarding empty fields. -/
def splitPy (l : List Char) : List (List Char) := splitPyAux l []

/-- String-level wrapper for splitPy. -/
def pySplit (s : String) : List String :=
  (splitPy s.toList).map (fun l => String.mk l)

/-- Helper for splitlinesPy: accumulate the current line, breaking at CR LF,
CR or LF.  A trailing line break does not produce a trailing empty line,
matching Python str.splitlines. -/
def splitlinesAux : List Char → List Char → List (List Char)
  | [], acc => if acc.isEmpty then [] else [acc.reverse]
  | '\r' :: '\n' :: rest, acc => acc.reverse :: splitlinesAux rest []
  | '\r' :: rest, acc => acc.reverse :: splitlinesAux rest []
  | '\n' :: rest, acc => acc.reverse :: splitlinesAux rest []
  | c :: rest, acc => splitlinesAux rest (c :: acc)

/-- Model of Python str.splitlines for the line terminators that occur in
the modelled command outputs. -/
def splitlinesPy (l : List Char) : List (List Char) := splitlinesAux l []

/-- Core of the model of the Python builtin float applied to a string with
surrounding whitespace already removed: optional sign, then a decimal
mantissa with at least one digit, then an optional exponent part.  Returns
none exactly when Python float would raise ValueError.  (The special inputs
inf and nan and the digit-separator underscore are outside this model; the
repository only ever feeds it decimal command output.)  The value is kept
as an exact rational. -/
def pyFloatCore (l : List Char) : Option ℚ :=
  let (sgn, l1) : ℚ × List Char :=
    match l with
    | '+' :: t => (1, t)
    | '-' :: t => (-1, t)
    | _ => (1, l)
  let ip := l1.takeWhile Char.isDigit
  let l2 := l1.drop ip.length
  let (fp, l3) : List Char × List Char :=
    match l2 with
    | '.' :: t => (t.takeWhile Char.isDigit, t.drop (t.takeWhile Char.isDigit).length)
    | _ => ([], l2)
  if ip.isEmpty && fp.isEmpty then none
  else
    let mant : ℚ := (digitsToNat ip : ℚ) + (digitsToNat fp : ℚ) / (10 : ℚ) ^ fp.length
    match l3 with
    | [] => some (sgn * mant)
    | 'e' :: t | 'E' :: t =>
      let (epos, t1) : Bool × List Char :=
        match t with
        | '+' :: u => (true, u)
        | '-' :: u => (false, u)
        | _ => (true, t)
      let ed := t1.takeWhile Char.isDigit
      let t2 := t1.drop ed.length
      if ed.isEmpty || !t2.isEmpty then none
      else
        some (sgn * (if epos then mant * (10 : ℚ) ^ digitsToNat ed
                     else mant / (10 : ℚ) ^ digitsToNat ed))
    | _ => none

/-- Model of the Python builtin float on a string: float itself ignores
surrounding whitespace before reading the literal. -/
def pyFloat (s : String) : Option ℚ :=
  pyFloatCore (stripPy s.toList)

/-- One step of the regex search for backslash-s+ (backslash-d+) percent
backslash-s+ slash, anchored at the head of the list.  The character classes
of consecutive plus-closures are disjoint, so greedy matching with
backtracking coincides with maximal munch and the match is deterministic.
Returns the captured digit group as a number. -/
def diskMatchAt (l : List Char) : Option Nat :=
  if (l.takeWhile isPySpace).isEmpty then none
  else
    let l1 := l.dropWhile isPySpace
    let ds := l1.takeWhile Char.isDigit
    if ds.isEmpty then none
    else
      match l1.dropWhile Char.isDigit with
      | '%' :: l2 =>
        if (l2.takeWhile isPySpace).isEmpty then none
        else
          match l2.dropWhile isPySpace with
          | '/' :: _ => some (digitsToNat ds)
          | _ => none
      | _ => none

/-- Model of re.search with the disk pattern: try the match at every start
position from the left and return the first (leftmost) success. -/
def diskSearch : List Char → Option Nat
  | [] => none
  | c :: rest =>
    match diskMatchAt (c :: rest) with
    | some n => some n
    | none => diskSearch rest

/-- Lines 51 to 56 of monitor.py: search the df output for the used
percentage of the root mount; the captured group becomes the metric value,
no match becomes null.  This section never raises. -/
def parse_disk (df_out : String) : Option ℚ :=
  (diskSearch df_out.toList).map (fun n => (n : ℚ))

/-- Predicate for line.startswith of the Mem: label on a character list. -/
def memRow (l : List Char) : Bool :=
  l.take 4 == ['M', 'e', 'm', ':']

/-- The first line of the free output that starts with the Mem: label, if
any, mirroring the for loop with break in lines 59 to 64 of monitor.py. -/
def memLine (free_out : String) : Option (List Char) :=
  (splitlinesPy free_out.toList).find? memRow

/-- Lines 59 to 67 of monitor.py: the memory section of get_metrics.  The
outer none means an exception escaped this section (IndexError from parts
indexing or ValueError from float), which the enclosing try of get_metrics
turns into the failure shape; the inner options are the two metric values,
null when no Mem: row exists. -/
def parse_mem (free_out : String) : Option (Option ℚ × Option ℚ) :=
  match memLine free_out with
  | none => some (none, none)
  | some line =>
    let parts := splitPy line
    match parts[1]? with
    | none => none
    | some p1 =>
      match pyFloatCore p1 with
      | none => none
      | some total =>
        if parts.length ≥ 7 then
          match parts[6]?.bind pyFloatCore with
          | none => none
          | some free => some (some total, some free)
        else
          match parts[3]? with
          | none => none
          | some p3 =>
            match pyFloatCore p3 with
            | none => none
            | some free => some (some total, some free)

/-- Lines 69 to 76 of monitor.py: the load-average section.  The outer none
again represents an escaping ValueError from float; with fewer than three
whitespace tokens all three values are null. -/
def parse_load (loadavg_out : String) :
    Option (Option ℚ × Option ℚ × Option ℚ) :=
  match splitPy loadavg_out.toList with
  | p0 :: p1 :: p2 :: _ =>
    match pyFloatCore p0, pyFloatCore p1, pyFloatCore p2 with
    | some a, some b, some c => some (some a, some b, some c)
    | _, _, _ => none
  | _ => some (none, none, none)

/-- Lines 78 to 83 of monitor.py: the temperature section.  The raw text is
stripped at the read site (line 49); float conversion failure is caught
locally, so this section never raises and none is simply the null value. -/
def parse_temp (temp_raw : String) : Option ℚ :=
  (pyFloatCore (stripPy temp_raw.toList)).map (fun q => q / 1000)

/-- The success-shape snapshot of get_metrics: all seven declared metric
keys, each possibly null. -/
structure Metrics where
  disk_root_used_pct : Option ℚ
  mem_total_mb : Option ℚ
  mem_free_mb : Option ℚ
  cpu_load_1m : Option ℚ
  cpu_load_5m : Option ℚ
  cpu_load_15m : Option ℚ
  temperature_c : Option ℚ
deriving DecidableEq, Repr

/-- The whole parsing block of get_metrics (lines 51 to 85), run inside its
try.  A none result means an exception escaped the memory or load sections;
the disk and temperature sections cannot raise. -/
def runParse (df_out free_out loadavg_out temp_raw : String) : Option Metrics :=
  let d := parse_disk df_out
  match parse_mem free_out with
  | none => none
  | some (mt, mf) =>
    match parse_load loadavg_out with
    | none => none
    | some (l1, l5, l15) =>
      some ⟨d, mt, mf, l1, l5, l15, parse_temp temp_raw⟩

/-- Outcome of the effectful prefix of get_metrics: the _connect call can
raise (connectFail, carrying str of the exception), the exec_command and
read calls can raise (execFail), or all four command outputs are obtained. -/
inductive TransportResult where
  | connectFail (msg : String)
  | execFail (msg : String)
  | ok (df_out free_out loadavg_out temp_raw : String)
deriving DecidableEq, Repr

/-- One poll result: either the success-shape metrics dictionary or the
failure-shape dictionary with the single error key.  The except branch of
get_metrics builds a fresh dictionary, so the two shapes never mix. -/
inductive Snapshot where
  | success (m : Metrics)
  | error (msg : String)
deriving DecidableEq, Repr

/-- Whether a snapshot has the failure shape. -/
def Snapshot.isErr : Snapshot → Bool
  | .success _ => false
  | .error _ => true

/-- Session lifecycle events observable from get_metrics: the return of
_connect and the client.close call of the finally block. -/
inductive Event where
  | connect
  | close
deriving DecidableEq, Repr

/-- Placeholder for str of the exception that the except branch formats
when parsing raises; only the shape of the snapshot is specified. -/
def parseExceptionMessage : String := "unhandled parse exception"

/-- Lines 30 to 92 of monitor.py: get_metrics together with its session
lifecycle events.  client starts as None; the try body connects, runs the
commands and parses; the except branch returns the single-key error
dictionary; the finally branch closes the client exactly when it is not
None. -/
def get_metrics_run (tr : TransportResult) : Snapshot × List Event :=
  let (clientObtained, bodyEvents, snap) :
      Bool × List Event × Snapshot :=
    match tr with
    | .connectFail msg => (false, [], .error msg)
    | .execFail msg => (true, [.connect], .error msg)
    | .ok df free load temp =>
      (true, [.connect],
        match runParse df free load temp with
        | some m => .success m
        | none => .error parseExceptionMessage)
  (snap, bodyEvents ++ (if clientObtained then [Event.close] else []))

/-- The snapshot returned by get_metrics. -/
def get_metrics (tr : TransportResult) : Snapshot :=
  (get_metrics_run tr).1

/-- Whether the transport prefix failed, that is, whether the session could
not be established or the commands could not be run at all. -/
def transportFailed : TransportResult → Bool
  | .ok _ _ _ _ => false
  | _ => true

/-- Whether a session was obtained, that is, whether the _connect call of
get_metrics returned normally. -/
def sessionObtained : TransportResult → Bool
  | .connectFail _ => false
  | _ => true

/-- Whether the _connect call itself raised. -/
def isConnectFail : TransportResult → Bool
  | .connectFail _ => true
  | _ => false

/-- Whether an exception escaped the parsing block after a complete
transport prefix. -/
def parseRaised : TransportResult → Bool
  | .ok df free load temp => (runParse df free load temp).isNone
  | _ => false

/-- Whether a transport result leads get_metrics to a success snapshot:
the transport prefix completed and parsing did not raise. -/
def trSuccess (tr : TransportResult) : Bool :=
  match tr with
  | .ok df free load temp => (runParse df free load temp).isSome
  | _ => false

/-- One host entry of the configuration document, as consumed by
load_hosts_from_json: each field read with dict.get, hence optional.  The
modelled command outputs only ever hold string or number values, so the
fields are typed accordingly. -/
structure HostEntry where
  hostname : Option String
  username : Option String
  key_filename : Option String
  password : Option String
  port : Option Nat
  label : Option String
deriving DecidableEq, Repr

/-- The fields of a RemoteMonitor object as set by the constructor in
lines 8 to 15 of monitor.py. -/
structure RemoteMonitor where
  hostname : String
  username : String
  key_filename : Option String
  password : Option String
  port : Nat
  label : String
deriving DecidableEq, Repr

/-- Python truthiness of an optional string value: None and the empty
string are falsy. -/
def truthyStr : Option String → Bool
  | none => false
  | some s => s ≠ ""

/-- The RemoteMonitor constructor of lines 8 to 15: label defaults to
hostname through the label-or-hostname expression, which also replaces a
present but empty label by hostname. -/
def RemoteMonitor.init (hostname username : String)
    (key_filename password : Option String) (port : Nat)
    (label : Option String) : RemoteMonitor :=
  { hostname := hostname
    username := username
    key_filename := key_filename
    password := password
    port := port
    label := match label with
             | some l => if l = "" then hostname else l
             | none => hostname }

/-- The monitor built from a retained host entry in lines 103 to 117 of
monitor.py, with port defaulting to 22 through dict.get. -/
def monitorOfEntry (h : HostEntry) : RemoteMonitor :=
  RemoteMonitor.init (h.hostname.getD "") (h.username.getD "")
    h.key_filename h.password (h.port.getD 22) h.label

/-- The retention test of line 110 of monitor.py: if hostname and username,
under Python truthiness. -/
def entryKept (h : HostEntry) : Bool :=
  truthyStr h.hostname && truthyStr h.username

/-- Lines 99 to 121 of monitor.py: the loop of load_hosts_from_json over
the host entries.  The first component is the returned monitor list, the
second collects the entries reported by the warning print.  Opening and
decoding the configuration file (lines 96 and 97) are outside the model;
the claims are about the per-entry loop. -/
def load_hosts_from_json : List HostEntry → List RemoteMonitor × List HostEntry
  | [] => ([], [])
  | h :: rest =>
    let (ms, ws) := load_hosts_from_json rest
    if entryKept h then (monitorOfEntry h :: ms, ws)
    else (ms, h :: ws)

/-- Lines 131 to 133 of monitor.py: one poll cycle maps get_metrics over
the monitors in registry order.  The per-host transport outcomes of the
cycle are the input list, aligned with the registry. -/
def pollCycle (trs : List TransportResult) : List Snapshot :=
  trs.map get_metrics

/-- The unbounded while loop of main, restricted to finitely many observed
cycles: each cycle is determined by that cycle's transport outcomes alone,
with no per-host state carried between cycles. -/
def runCycles (cycles : List (List TransportResult)) : List (List Snapshot) :=
  cycles.map pollCycle

end ZeroMonitor

namespace ZeroMonitor

/-- C1 counterexample: a memory text whose Mem: row carries a non-numeric
field makes the float call raise; the exception escapes the parsing block
and get_metrics returns the failure shape instead of a success-shape
snapshot, so parsing is not total. -/
theorem c1_counterexample :
    get_metrics (.ok "" "Mem: abc" "" "") = .error parseExceptionMessage := by
  with_unfolding_all rfl

/-- C1 (amended): whenever the memory and load-average sections do not
raise, get_metrics on four raw strings returns the success-shape snapshot
containing all seven declared keys, each value possibly null; the disk and
temperature sections can never raise. -/
theorem c1_parse_success_shape (df free load temp : String)
    (mt mf l1 l5 l15 : Option ℚ)
    (hm : parse_mem free = some (mt, mf))
    (hl : parse_load load = some (l1, l5, l15)) :
    get_metrics (.ok df free load temp) =
      .success ⟨parse_disk df, mt, mf, l1, l5, l15, parse_temp temp⟩ := by
  simp [get_metrics, get_metrics_run, runParse, hm, hl]

/-- Witness for C1 at four empty strings, where neither raising section
finds anything to raise on. -/
theorem c1_parse_success_shape_witness :
    get_metrics (.ok "" "" "" "") =
      .success ⟨parse_disk "", none, none, none, none, none, parse_temp ""⟩ :=
  c1_parse_success_shape "" "" "" "" none none none none none
    (by with_unfolding_all rfl) (by with_unfolding_all rfl)

/-- C2 counterexample: a load-average text with three non-numeric tokens is
a pure parse failure, yet get_metrics returns the failure shape, so the
failure shape is not reserved to transport or auth failures. -/
theorem c2_counterexample :
    transportFailed (.ok "" "" "x y z" "") = false ∧
    (get_metrics (.ok "" "" "x y z" "")).isErr = true :=
  ⟨rfl, by with_unfolding_all rfl⟩

/-- C2 (amended): get_metrics returns the failure shape exactly when the
transport prefix failed or an exception escaped the memory or load-average
parsing sections; the failure shape is a fresh single-key dictionary, so
the two shapes are never mixed. -/
theorem c2_error_shape_iff (tr : TransportResult) :
    (get_metrics tr).isErr = (transportFailed tr || parseRaised tr) := by
  cases tr with
  | connectFail m => rfl
  | execFail m => rfl
  | ok a b c d =>
    cases h : runParse a b c d <;>
      simp [get_metrics, get_metrics_run, transportFailed, parseRaised,
        Snapshot.isErr, h]

/-- C5 (confirmed): on every path of get_metrics on which _connect returned
a client, the finally block closes that client exactly once, whether the
commands and the parsing succeeded or not; when no session was obtained no
close happens. -/
theorem c5_close_exactly_once (tr : TransportResult) :
    (sessionObtained tr = true →
      (get_metrics_run tr).2.count Event.close = 1) ∧
    (sessionObtained tr = false →
      (get_metrics_run tr).2.count Event.close = 0) := by
  cases tr with
  | connectFail m => exact ⟨fun h => by simp [sessionObtained] at h, fun _ => rfl⟩
  | execFail m => exact ⟨fun _ => rfl, fun h => by simp [sessionObtained] at h⟩
  | ok a b c d => exact ⟨fun _ => rfl, fun h => by simp [sessionObtained] at h⟩

/-- Witness for C5 on a run where the commands failed after a session was
obtained: the session is still closed exactly once. -/
theorem c5_close_exactly_once_witness :
    (get_metrics_run (.execFail "channel failure")).2.count Event.close = 1 :=
  (c5_close_exactly_once (.execFail "channel failure")).1 rfl

/-- C7 (confirmed): temperature text 45780 parses to 45.78 degrees, empty
or non-numeric text gives a null value, and the temperature section never
raises: the shape of the snapshot never depends on the temperature text. -/
theorem c7_temperature_parsing :
    parse_temp "45780" = some (2289 / 50) ∧
    parse_temp "abc" = none ∧
    parse_temp "" = none ∧
    ∀ df free load t1 t2 : String,
      (get_metrics (.ok df free load t1)).isErr =
        (get_metrics (.ok df free load t2)).isErr := by
  refine ⟨by with_unfolding_all rfl, by with_unfolding_all rfl,
    by with_unfolding_all rfl, ?_⟩
  intro df free load t1 t2
  cases hm : parse_mem free with
  | none => simp [get_metrics, get_metrics_run, runParse, hm]
  | some p =>
    obtain ⟨mt, mf⟩ := p
    cases hl : parse_load load with
    | none => simp [get_metrics, get_metrics_run, runParse, hm, hl]
    | some q =>
      obtain ⟨a, q2⟩ := q
      obtain ⟨b, c⟩ := q2
      simp [get_metrics, get_metrics_run, runParse, hm, hl, Snapshot.isErr]

/-- C3 counterexample: the example 8-field memory row has 100, not 700, as
its 7th whitespace field, so mem_free_mb is 100.0 there; and a Mem: row
with fewer than 4 fields raises IndexError instead of yielding null
values. -/
theorem c3_counterexample :
    parse_mem "Mem: 1837 900 50 30 5 100 700" ≠ some (some 1837, some 700) ∧
    parse_mem "Mem: 1837 900 50 30 5 100 700" = some (some 1837, some 100) ∧
    parse_mem "Mem: 1 2" ≠ some (none, none) ∧
    parse_mem "Mem: 1 2" = none := by
  have h1 : parse_mem "Mem: 1837 900 50 30 5 100 700" =
      some (some 1837, some 100) := by with_unfolding_all rfl
  have h2 : parse_mem "Mem: 1 2" = none := by with_unfolding_all rfl
  refine ⟨?_, h1, ?_, h2⟩
  · rw [h1]
    intro hcontra
    have hsnd : (some (100 : ℚ) : Option ℚ) = some 700 :=
      congrArg Prod.snd (Option.some.inj hcontra)
    have h100 : (100 : ℚ) = 700 := Option.some.inj hsnd
    norm_num at h100
  · rw [h2]; simp

/-- C3 (amended): memory parsing finds the first line starting with the
Mem: label and splits it on whitespace; the total is the 2nd field and the
free value is the 7th field when the row has at least 7 fields, the 4th
otherwise, provided those fields convert to numbers; the 8-field example
row gives 1837 and 100 (its 7th field, not 700), the legacy row gives 937,
no matching row gives two null values, and a matching row with fewer than
4 fields raises IndexError, which surfaces as the failure shape rather
than null values. -/
theorem c3_memory_parsing :
    parse_mem "Mem: 1837 900 50 30 5 100 700" = some (some 1837, some 100) ∧
    parse_mem "Mem: 1837 900 937" = some (some 1837, some 937) ∧
    (∀ s : String, memLine s = none → parse_mem s = some (none, none)) ∧
    (parse_mem "Mem: 1 2" = none ∧
      get_metrics (.ok "" "Mem: 1 2" "" "") = .error parseExceptionMessage) ∧
    (∀ (s : String) (line : List Char) (t f : ℚ),
      memLine s = some line →
      (splitPy line)[1]?.bind pyFloatCore = some t →
      (if (splitPy line).length ≥ 7 then (splitPy line)[6]?.bind pyFloatCore
       else (splitPy line)[3]?.bind pyFloatCore) = some f →
      parse_mem s = some (some t, some f)) := by
  refine ⟨by with_unfolding_all rfl, by with_unfolding_all rfl, ?_,
    ⟨by with_unfolding_all rfl, by with_unfolding_all rfl⟩, ?_⟩
  · intro s h
    simp [parse_mem, h]
  · intro s line t f hline h1 h2
    obtain ⟨p1, hp1, hf1⟩ := Option.bind_eq_some.mp h1
    by_cases h7 : (splitPy line).length ≥ 7
    · rw [if_pos h7] at h2
      obtain ⟨p6, hp6, hf6⟩ := Option.bind_eq_some.mp h2
      simp [parse_mem, hline, hp1, hf1, h7, hp6, hf6]
    · rw [if_neg h7] at h2
      obtain ⟨p3, hp3, hf3⟩ := Option.bind_eq_some.mp h2
      simp [parse_mem, hline, hp1, hf1, h7, hp3, hf3]

/-- Witness for C3 on a memory text with no Mem: row: both memory values
are null in a success-shape snapshot. -/
theorem c3_memory_parsing_witness :
    parse_mem "Swap: 0 0 0" = some (none, none) :=
  c3_memory_parsing.2.2.1 "Swap: 0 0 0" (by with_unfolding_all rfl)

/-- A successful anchored disk match can only happen on text containing a
percent character. -/
theorem diskMatchAt_percent {l : List Char} {n : Nat}
    (h : diskMatchAt l = some n) : '%' ∈ l := by
  unfold diskMatchAt at h
  dsimp only at h
  split at h
  · exact absurd h (by simp)
  · split at h
    · exact absurd h (by simp)
    · split at h
      next l2 heq =>
        have h1 : '%' ∈ (l.dropWhile isPySpace).dropWhile Char.isDigit := by
          rw [heq]; exact List.mem_cons_self _ _
        exact (List.dropWhile_sublist _).subset
          ((List.dropWhile_sublist _).subset h1)
      next => exact absurd h (by simp)

/-- A successful disk search can only happen on text containing a percent
character. -/
theorem diskSearch_percent :
    ∀ {l : List Char} {n : Nat}, diskSearch l = some n → '%' ∈ l := by
  intro l
  induction l with
  | nil => intro n h; simp [diskSearch] at h
  | cons c rest ih =>
    intro n h
    rw [diskSearch] at h
    cases hm : diskMatchAt (c :: rest) with
    | some m => exact diskMatchAt_percent hm
    | none => rw [hm] at h; exact List.mem_cons_of_mem _ (ih h)

/-- C8 (confirmed): disk parsing extracts the used percentage preceding the
root mount path from df output, and text with no matching pattern (in
particular text with no percent character at all) yields a null value. -/
theorem c8_disk_parsing :
    parse_disk "Filesystem      Size  Used Avail Use% Mounted on\n/dev/root        29G  4.9G   23G  18% /" = some 18 ∧
    ∀ s : String, (∀ c ∈ s.toList, c ≠ '%') → parse_disk s = none := by
  refine ⟨by with_unfolding_all rfl, ?_⟩
  intro s hs
  unfold parse_disk
  cases hd : diskSearch s.toList with
  | none => rfl
  | some n => exact absurd rfl (hs '%' (diskSearch_percent hd))

/-- Witness for C8 on disk text with no percent character: the disk metric
is null. -/
theorem c8_disk_parsing_witness : parse_disk "no matching pattern" = none :=
  c8_disk_parsing.2 "no matching pattern" (by decide)

/-- C9 (confirmed): load-average parsing splits on whitespace; the example
line yields the first three tokens as the three load values, fewer than
three tokens yield three null values, and with at least three convertible
tokens the first three become the 1, 5 and 15 minute averages. -/
theorem c9_loadavg_parsing :
    parse_load "0.15 0.22 0.10 1/241 12345" =
      some (some (3 / 20), some (11 / 50), some (1 / 10)) ∧
    (∀ s : String, (splitPy s.toList).length < 3 →
      parse_load s = some (none, none, none)) ∧
    (∀ (s : String) (p0 p1 p2 : List Char) (rest : List (List Char))
        (a b c : ℚ),
      splitPy s.toList = p0 :: p1 :: p2 :: rest →
      pyFloatCore p0 = some a → pyFloatCore p1 = some b →
      pyFloatCore p2 = some c →
      parse_load s = some (some a, some b, some c)) := by
  refine ⟨by with_unfolding_all rfl, ?_, ?_⟩
  · intro s h
    rcases hsp : splitPy s.toList with _ | ⟨p0, _ | ⟨p1, _ | ⟨p2, rest⟩⟩⟩ <;>
      simp only [parse_load, hsp]
    rw [hsp] at h
    simp at h
    omega
  · intro s p0 p1 p2 rest a b c hsp h0 h1 h2
    simp only [parse_load, hsp, h0, h1, h2]

/-- Witness for C9 on a single-token load-average text: all three load
values are null. -/
theorem c9_loadavg_parsing_witness : parse_load "0.52" = some (none, none, none) :=
  c9_loadavg_parsing.2.1 "0.52" (by decide)

/-- C10 (confirmed): the temperature section uses the general float
conversion, so fractional numeric text is accepted: 45.5 parses to
0.0455 rather than a null value. -/
theorem c10_temperature_fractional :
    parse_temp "45.5" = some (91 / 2000) ∧ parse_temp "45.5" ≠ none := by
  have he : parse_temp "45.5" = some (91 / 2000) := by with_unfolding_all rfl
  exact ⟨he, by simp [he]⟩

/-- A host whose transport prefix completed and whose parsing did not raise
gets a success-shape snapshot. -/
theorem isErr_of_trSuccess {tr : TransportResult}
    (h : trSuccess tr = true) : (get_metrics tr).isErr = false := by
  cases tr with
  | connectFail m => simp [trSuccess] at h
  | execFail m => simp [trSuccess] at h
  | ok a b c d =>
    simp only [trSuccess] at h
    obtain ⟨m, hm⟩ := Option.isSome_iff_exists.mp h
    simp [get_metrics, get_metrics_run, hm, Snapshot.isErr]

/-- C4 (confirmed): a cycle over a registry in which one host fails to
connect and every other host polls successfully emits one snapshot per
host in registry order, with the single failure-shape snapshot exactly at
the failing host's position; and since each cycle is a pure function of
that cycle's own transport outcomes, earlier failures carry no state into
later cycles. -/
theorem c4_cycle_isolation (A B : List TransportResult) (msg : String)
    (hA : ∀ tr ∈ A, trSuccess tr = true)
    (hB : ∀ tr ∈ B, trSuccess tr = true) :
    pollCycle (A ++ TransportResult.connectFail msg :: B) =
      A.map get_metrics ++ Snapshot.error msg :: B.map get_metrics ∧
    (pollCycle (A ++ TransportResult.connectFail msg :: B)).length =
      A.length + B.length + 1 ∧
    (pollCycle (A ++ TransportResult.connectFail msg :: B)).countP
      Snapshot.isErr = 1 ∧
    (pollCycle (A ++ TransportResult.connectFail msg :: B)).countP
      (fun s => ! s.isErr) = A.length + B.length ∧
    (∀ s ∈ A.map get_metrics ++ B.map get_metrics, s.isErr = false) ∧
    (∀ (cycles : List (List TransportResult)) (i : Nat),
      (runCycles cycles)[i]? = (cycles[i]?).map pollCycle) := by
  have hmem : ∀ s ∈ A.map get_metrics ++ B.map get_metrics,
      s.isErr = false := by
    intro s hs
    rcases List.mem_append.mp hs with hsl | hsr
    · obtain ⟨tr, htr, rfl⟩ := List.mem_map.mp hsl
      exact isErr_of_trSuccess (hA tr htr)
    · obtain ⟨tr, htr, rfl⟩ := List.mem_map.mp hsr
      exact isErr_of_trSuccess (hB tr htr)
  have hdec : pollCycle (A ++ TransportResult.connectFail msg :: B) =
      A.map get_metrics ++ Snapshot.error msg :: B.map get_metrics := by
    simp [pollCycle, get_metrics, get_metrics_run]
  have hzA : (A.map get_metrics).countP Snapshot.isErr = 0 :=
    List.countP_eq_zero.mpr fun s hsl => by
      simp [hmem s (List.mem_append.mpr (Or.inl hsl))]
  have hzB : (B.map get_metrics).countP Snapshot.isErr = 0 :=
    List.countP_eq_zero.mpr fun s hsr => by
      simp [hmem s (List.mem_append.mpr (Or.inr hsr))]
  have hlA : (A.map get_metrics).countP (fun s => ! s.isErr) =
      (A.map get_metrics).length :=
    List.countP_eq_length.mpr fun s hsl => by
      simp [hmem s (List.mem_append.mpr (Or.inl hsl))]
  have hlB : (B.map get_metrics).countP (fun s => ! s.isErr) =
      (B.map get_metrics).length :=
    List.countP_eq_length.mpr fun s hsr => by
      simp [hmem s (List.mem_append.mpr (Or.inr hsr))]
  refine ⟨hdec, ?_, ?_, ?_, hmem, ?_⟩
  · rw [hdec]
    simp [List.length_append]
    omega
  · rw [hdec, List.countP_append, List.countP_cons, hzA, hzB]
    simp [Snapshot.isErr]
  · rw [hdec, List.countP_append, List.countP_cons, hlA, hlB]
    simp [Snapshot.isErr, List.length_map]
  · intro cycles i
    simp [runCycles, List.getElem?_map]

/-- Witness for C4 on a two-host registry whose second host fails to
connect: the cycle has exactly one failure-shape snapshot. -/
theorem c4_cycle_isolation_witness :
    (pollCycle [TransportResult.ok "" "" "" "",
      TransportResult.connectFail "host unreachable"]).countP
      Snapshot.isErr = 1 :=
  (c4_cycle_isolation [TransportResult.ok "" "" "" ""] [] "host unreachable"
    (fun tr htr => by
      rw [List.mem_singleton] at htr
      subst htr
      with_unfolding_all rfl)
    (fun tr htr => absurd htr (List.not_mem_nil tr))).2.2.1

/-- C6 counterexample: an entry whose hostname key is present but holds the
empty string has both required keys present, yet it is dropped, because
the code tests Python truthiness rather than presence. -/
theorem c6_counterexample :
    load_hosts_from_json
        [⟨some "", some "user", none, none, none, none⟩] =
      ([], [⟨some "", some "user", none, none, none, none⟩]) ∧
    (HostEntry.hostname ⟨some "", some "user", none, none, none, none⟩).isSome
      = true ∧
    (HostEntry.username ⟨some "", some "user", none, none, none, none⟩).isSome
      = true :=
  ⟨rfl, rfl, rfl⟩

/-- C6 (amended): registry loading retains, in their original order,
exactly the entries whose hostname and username are present and non-empty
(Python-truthy), and records every other entry with a warning, in order;
the loop is total, so no entry makes it raise. -/
theorem c6_registry_retention (entries : List HostEntry) :
    (load_hosts_from_json entries).1 =
      (entries.filter entryKept).map monitorOfEntry ∧
    (load_hosts_from_json entries).2 =
      entries.filter (fun h => ! entryKept h) := by
  induction entries with
  | nil => exact ⟨rfl, rfl⟩
  | cons h rest ih =>
    cases hk : entryKept h <;>
      simp [load_hosts_from_json, List.filter_cons, hk, ih.1, ih.2]

end ZeroMonitor
